import Mathlib

/-!
Verification of the LC-3 virtual machine in `vanilla/vm.js`.

The repository ships two implementations of the interpreter: the current one
(exported `run`, built around `signExtendSuffix`) and an older draft (exported
`main`, built around `signExtend`).  The shallow embedding below follows the
current implementation line by line; the few functions of the older draft that
a claim cites and that differ are embedded in the `Legacy` namespace.

Modelling conventions:
- JS numbers holding 16-bit machine words are `Nat`; every store into a
  `Uint16Array` applies `% 65536` (the `ToUint16` conversion).
- `Uint16Array` indexing is total in JS but yields `undefined` out of bounds
  and drops out-of-bounds stores; reads are therefore `Option Nat` and stores
  are guarded by the array size.  The arrays are modelled as functions.
- `process.stdout.write` is modelled by appending the written UTF-16 code
  units to an output list.
- Keyboard polling (`pollForKey`) and the blocking `getChar` are modelled by
  two oracle streams carried in the state: `polls` (one `Option Nat` per poll,
  `none` = no key available) and `keys` (one byte per blocking read).
-/

namespace LC3

-- register indices
def R0 : Nat := 0
def R7 : Nat := 7
def PC : Nat := 8
def COND : Nat := 9

-- opcodes
def OP_BR : Nat := 0
def OP_ADD : Nat := 1
def OP_LD : Nat := 2
def OP_ST : Nat := 3
def OP_JSR : Nat := 4
def OP_AND : Nat := 5
def OP_LDR : Nat := 6
def OP_STR : Nat := 7
def OP_NOT : Nat := 9
def OP_LDI : Nat := 10
def OP_STI : Nat := 11
def OP_JMP : Nat := 12
def OP_LEA : Nat := 14
def OP_TRAP : Nat := 15

-- condition flags
def FL_POS : Nat := 0b1
def FL_ZRO : Nat := 0b10
def FL_NEG : Nat := 0b100

-- trap codes
def TRAP_GETC : Nat := 0x20
def TRAP_OUT : Nat := 0x21
def TRAP_PUTS : Nat := 0x22
def TRAP_IN : Nat := 0x23
def TRAP_PUTSP : Nat := 0x24
def TRAP_HALT : Nat := 0x25

-- memory mapped registers
def MR_KBSR : Nat := 0xfe00
def MR_KBDR : Nat := 0xfe02

/-- `new Uint16Array(0xffff)`: the backing array has 0xffff = 65535 elements,
so its valid indices are 0..0xfffe. -/
def MEM_SIZE : Nat := 0xffff

/-- Reading a `Uint16Array` element: in-bounds indices return the stored word,
out-of-bounds indices return `undefined` (here `none`). -/
def tarrGet (m : Nat → Nat) (i : Nat) : Option Nat :=
  if i < MEM_SIZE then some (m i) else none

/-- Writing a `Uint16Array` element: the value is converted with `ToUint16`
(`% 65536`); out-of-bounds stores are dropped. -/
def tarrSet (m : Nat → Nat) (i v : Nat) : Nat → Nat :=
  fun j => if i < MEM_SIZE ∧ j = i then v % 65536 else m j

/-- Writing `registers` (`new Uint16Array(10)`), same conversion rules. -/
def regSet (regs : Nat → Nat) (r v : Nat) : Nat → Nat :=
  fun i => if r < 10 ∧ i = r then v % 65536 else regs i

/-- The mutable program state: the two typed arrays, the console output
written so far, the two input oracles, and the `running` flag of the main
loop. -/
structure VM where
  registers : Nat → Nat
  memory : Nat → Nat
  polls : List (Option Nat)
  keys : List Nat
  out : List Nat
  running : Bool

def setReg (s : VM) (r v : Nat) : VM :=
  { s with registers := regSet s.registers r v }

def writeMemory (s : VM) (address value : Nat) : VM :=
  { s with memory := tarrSet s.memory address value }

/-- `readMemory(address)`: on a read of `MR_KBSR` the keyboard is polled first
and the KBSR/KBDR pair updated; then the cell at `address` is returned.
The JS test `if (keyCode)` is falsy both for `undefined` (no key) and for the
byte `0`, which `Option.getD 0` captures exactly. -/
def readMemory (s : VM) (address : Nat) : Option Nat × VM :=
  if address = MR_KBSR then
    let keyCode := s.polls.headD none
    let s1 : VM := { s with polls := s.polls.tail }
    let s2 :=
      if keyCode.getD 0 ≠ 0 then
        writeMemory (writeMemory s1 MR_KBSR 0x8000) MR_KBDR (keyCode.getD 0)
      else
        writeMemory s1 MR_KBSR 0
    (tarrGet s2.memory address, s2)
  else
    (tarrGet s.memory address, s)

/-- `readMemory` applied to a possibly-undefined address.  Indexing with
`undefined` compares unequal to `MR_KBSR` and hits no array cell. -/
def readMemoryOpt (s : VM) (a : Option Nat) : Option Nat × VM :=
  match a with
  | some addr => readMemory s addr
  | none => (none, s)

/-- `writeMemory` applied to a possibly-undefined address; a store keyed by
`undefined` touches no array cell. -/
def writeMemoryOpt (s : VM) (a : Option Nat) (value : Nat) : VM :=
  match a with
  | some addr => writeMemory s addr value
  | none => s

-- UTILITIES

/-- `signExtendSuffix(instr, inputBitWidth)` of the current implementation. -/
def signExtendSuffix (instr inputBitWidth : Nat) : Nat :=
  let mask := (1 <<< inputBitWidth) - 1
  let suffix := instr &&& mask
  if (suffix >>> (inputBitWidth - 1)) &&& 1 = 1 then
    (suffix ||| (0xffff <<< inputBitWidth)) &&& 0xffff
  else
    suffix

def updateCondFlag (register : Nat) (s : VM) : VM :=
  if s.registers register = 0 then setReg s COND FL_ZRO
  else if s.registers register >>> 15 = 1 then setReg s COND FL_NEG
  else setReg s COND FL_POS

-- OPERATIONS

def add (instr : Nat) (s : VM) : VM :=
  let destReg := (instr >>> 9) &&& 0b111
  let inputReg := (instr >>> 6) &&& 0b111
  let immFlag := (instr >>> 5) &&& 0b1
  let s1 :=
    if immFlag ≠ 0 then
      setReg s destReg (s.registers inputReg + signExtendSuffix instr 5)
    else
      setReg s destReg (s.registers inputReg + s.registers (instr &&& 0b111))
  updateCondFlag destReg s1

def and (instr : Nat) (s : VM) : VM :=
  let destReg := (instr >>> 9) &&& 0b111
  let inputReg := (instr >>> 6) &&& 0b111
  let immFlag := (instr >>> 5) &&& 0b1
  let s1 :=
    if immFlag ≠ 0 then
      setReg s destReg (s.registers inputReg &&& signExtendSuffix instr 5)
    else
      setReg s destReg (s.registers inputReg &&& s.registers (instr &&& 0b111))
  updateCondFlag destReg s1

/-- `registers[destReg] = ~registers[inputReg]`: for a 16-bit value `x`, the
`ToUint16` image of the JS 32-bit complement `~x` is `65535 - x % 65536`. -/
def not (instr : Nat) (s : VM) : VM :=
  let destReg := (instr >>> 9) &&& 0b111
  let inputReg := (instr >>> 6) &&& 0b111
  let s1 := setReg s destReg (65535 - s.registers inputReg % 65536)
  updateCondFlag destReg s1

def branch (instr : Nat) (s : VM) : VM :=
  let condMask := (instr >>> 9) &&& 0b111
  let condFlag := s.registers COND
  let shouldBranch := condMask &&& condFlag
  if shouldBranch ≠ 0 then
    setReg s PC ((s.registers PC + signExtendSuffix instr 9) &&& 0xffff)
  else s

def jump (instr : Nat) (s : VM) : VM :=
  let baseRegister := (instr >>> 6) &&& 0b111
  setReg s PC (s.registers baseRegister)

def jumpToSubroutine (instr : Nat) (s : VM) : VM :=
  let s1 := setReg s R7 (s.registers PC)
  let offsetFlag := (instr >>> 11) &&& 0b1
  if offsetFlag = 1 then
    setReg s1 PC ((s1.registers PC + signExtendSuffix instr 11) &&& 0xffff)
  else
    setReg s1 PC (s1.registers ((instr >>> 6) &&& 0b111))

/-- A value read from memory and stored into a register: storing `undefined`
in a `Uint16Array` stores 0. -/
def load (instr : Nat) (s : VM) : VM :=
  let destReg := (instr >>> 9) &&& 0b111
  let offset := signExtendSuffix instr 9
  let addr := (s.registers PC + offset) &&& 0xffff
  let rm := readMemory s addr
  let s2 := setReg rm.2 destReg (rm.1.getD 0)
  updateCondFlag destReg s2

def loadIndirect (instr : Nat) (s : VM) : VM :=
  let destReg := (instr >>> 9) &&& 0b111
  let loadOffset := signExtendSuffix instr 9
  let addr := (s.registers PC + loadOffset) &&& 0xffff
  let rm1 := readMemory s addr
  let rm2 := readMemoryOpt rm1.2 rm1.1
  let s3 := setReg rm2.2 destReg (rm2.1.getD 0)
  updateCondFlag destReg s3

def loadWithOffset (instr : Nat) (s : VM) : VM :=
  let destReg := (instr >>> 9) &&& 0b111
  let baseRegister := (instr >>> 6) &&& 0b111
  let offset := signExtendSuffix instr 6
  let addr := (s.registers baseRegister + offset) &&& 0xffff
  let rm := readMemory s addr
  let s2 := setReg rm.2 destReg (rm.1.getD 0)
  updateCondFlag destReg s2

def loadEffectiveAddress (instr : Nat) (s : VM) : VM :=
  let destReg := (instr >>> 9) &&& 0b111
  let offset := signExtendSuffix instr 9
  let s1 := setReg s destReg ((s.registers PC + offset) &&& 0xffff)
  updateCondFlag destReg s1

def store (instr : Nat) (s : VM) : VM :=
  let inputReg := (instr >>> 9) &&& 0b111
  let offset := signExtendSuffix instr 9
  let destAddr := (s.registers PC + offset) &&& 0xffff
  writeMemory s destAddr (s.registers inputReg)

def storeIndirect (instr : Nat) (s : VM) : VM :=
  let inputReg := (instr >>> 9) &&& 0b111
  let offset := signExtendSuffix instr 9
  let readAddr := (s.registers PC + offset) &&& 0xffff
  let rm := readMemory s readAddr
  writeMemoryOpt rm.2 rm.1 (rm.2.registers inputReg)

def storeOffset (instr : Nat) (s : VM) : VM :=
  let regToStore := (instr >>> 9) &&& 0b111
  let baseReg := (instr >>> 6) &&& 0b111
  let offset := signExtendSuffix instr 6
  let destAddr := (s.registers baseReg + offset) &&& 0xffff
  writeMemory s destAddr (s.registers regToStore)

-- TRAP ROUTINES

/-- `getChar` blocks until stdin delivers a byte; the byte is the next element
of the `keys` oracle. -/
def getChar (s : VM) : Nat × VM :=
  (s.keys.headD 0, { s with keys := s.keys.tail })

/-- `String.fromCharCode` converts its argument with `ToUint16`. -/
def fromCharCode (n : Nat) : Nat := n % 65536

def stdoutWrite (s : VM) (code : Nat) : VM :=
  { s with out := s.out ++ [code] }

def stdoutWriteStr (s : VM) (codes : List Nat) : VM :=
  { s with out := s.out ++ codes }

def promptChars : List Nat := (String.toList "Enter a character: ").map Char.toNat

def trapGetc (s : VM) : VM :=
  let gc := getChar s
  setReg gc.2 R0 gc.1

def trapIn (s : VM) : VM :=
  let s1 := stdoutWriteStr s promptChars
  let gc := getChar s1
  let s3 := stdoutWrite gc.2 (fromCharCode gc.1)
  setReg s3 R0 gc.1

def trapOut (s : VM) : VM :=
  let character := s.registers R0
  stdoutWrite s (fromCharCode character)

/-- The `while (character !== 0x0000)` loop of `trapPuts`.  `addr` increments
without wrap-around, so past the end of the array the loop reads `undefined`
(which is `!== 0`) forever; the loop is therefore given fuel, and `none` marks
a run that has not terminated within the fuel. -/
def trapPutsLoop (s : VM) (addr : Nat) (character : Option Nat) (fuel : Nat) :
    Option VM :=
  match fuel with
  | 0 => none
  | fuel + 1 =>
    if character = some 0 then some s
    else
      let s1 := stdoutWrite s (fromCharCode (character.getD 0))
      let rm := readMemory s1 (addr + 1)
      trapPutsLoop rm.2 (addr + 1) rm.1 fuel

def trapPuts (s : VM) (fuel : Nat) : Option VM :=
  let addr := s.registers R0
  let rm := readMemory s addr
  trapPutsLoop rm.2 addr rm.1 fuel

/-- The `while (characterPair !== 0x0000)` loop of `trapPutsp`. -/
def trapPutspLoop (s : VM) (addr : Nat) (pair : Option Nat) (fuel : Nat) :
    Option VM :=
  match fuel with
  | 0 => none
  | fuel + 1 =>
    if pair = some 0 then some s
    else
      let v := pair.getD 0
      let s1 := stdoutWrite s (fromCharCode (v &&& 0xff))
      let char2 := v >>> 8
      let s2 := if char2 ≠ 0 then stdoutWrite s1 (fromCharCode char2) else s1
      let rm := readMemory s2 (addr + 1)
      trapPutspLoop rm.2 (addr + 1) rm.1 fuel

def trapPutsp (s : VM) (fuel : Nat) : Option VM :=
  let addr := s.registers R0
  let rm := readMemory s addr
  trapPutspLoop rm.2 addr rm.1 fuel

-- MAIN LOOP

/-- The `switch (opcode)` dispatch of the main loop, applied to a fetched
instruction word with the program counter already advanced.  `fuel` bounds the
PUTS/PUTSP loops; `none` marks a dispatch that has not terminated. -/
def executeInstr (s : VM) (instruction fuel : Nat) : Option VM :=
  let opcode := instruction >>> 12
  if opcode = OP_ADD then some (add instruction s)
  else if opcode = OP_AND then some (and instruction s)
  else if opcode = OP_NOT then some (not instruction s)
  else if opcode = OP_BR then some (branch instruction s)
  else if opcode = OP_JMP then some (jump instruction s)
  else if opcode = OP_JSR then some (jumpToSubroutine instruction s)
  else if opcode = OP_LD then some (load instruction s)
  else if opcode = OP_LDI then some (loadIndirect instruction s)
  else if opcode = OP_LDR then some (loadWithOffset instruction s)
  else if opcode = OP_LEA then some (loadEffectiveAddress instruction s)
  else if opcode = OP_ST then some (store instruction s)
  else if opcode = OP_STI then some (storeIndirect instruction s)
  else if opcode = OP_STR then some (storeOffset instruction s)
  else if opcode = OP_TRAP then
    let trapCode := instruction &&& 0xFF
    if trapCode = TRAP_GETC then some (trapGetc s)
    else if trapCode = TRAP_HALT then some { s with running := false }
    else if trapCode = TRAP_IN then some (trapIn s)
    else if trapCode = TRAP_OUT then some (trapOut s)
    else if trapCode = TRAP_PUTS then trapPuts s fuel
    else if trapCode = TRAP_PUTSP then trapPutsp s fuel
    else some s
  else some s

/-- One iteration of the fetch-decode-execute loop: fetch through
`readMemory`, increment PC, dispatch.  Every use the handlers make of the
fetched word is a bitwise operation, under which an `undefined` fetch result
behaves as 0. -/
def step (s : VM) (fuel : Nat) : Option VM :=
  let rm := readMemory s (s.registers PC)
  let instruction := rm.1.getD 0
  let s2 := setReg rm.2 PC (rm.2.registers PC + 1)
  executeInstr s2 instruction fuel

-- IMAGE LOADING

/-- `buffer.readUInt16BE(offset)`: big-endian 16-bit word at a byte offset. -/
def readUInt16BE (bytes : List Nat) (offset : Nat) : Nat :=
  bytes.getD offset 0 * 256 + bytes.getD (offset + 1) 0

/-- The image-loading `while (offset < programBuffer.length)` loop:
`memLocation` increments without any wrap-around. -/
def loadLoop (s : VM) (bytes : List Nat) (memLocation offset : Nat) : VM :=
  if offset < bytes.length then
    loadLoop (writeMemory s memLocation (readUInt16BE bytes offset)) bytes
      (memLocation + 1) (offset + 2)
  else s
termination_by bytes.length - offset
decreasing_by omega

/-- A zeroed machine, as created by `new Uint16Array`, with the two input
oracles attached. -/
def initVM (polls : List (Option Nat)) (keys : List Nat) : VM :=
  { registers := fun _ => 0
    memory := fun _ => 0
    polls := polls
    keys := keys
    out := []
    running := true }

/-- The prelude of `run(programBuffer)`: load the image (first word = origset,
remaining words stored at successive locations), then `registers[PC] = 0x3000`.
This is the state in which the fetch-decode-execute loop starts. -/
def startVM (bytes : List Nat) (polls : List (Option Nat)) (keys : List Nat) :
    VM :=
  let s := loadLoop (initVM polls keys) bytes (readUInt16BE bytes 0) 2
  setReg s PC 0x3000

-- THE OLDER DRAFT IMPLEMENTATION (exported `main`)

namespace Legacy

/-- `signExtend(num, bitCount)` of the older draft: no input mask and no final
16-bit truncation. -/
def signExtend (num bitCount : Nat) : Nat :=
  if (num >>> (bitCount - 1)) &&& 1 = 1 then
    num ||| (0xffff <<< bitCount)
  else num

/-- `updateCondFlag` of the older draft.  Its negative test reads
`register[register]` - a property access on the `Number` argument, which is
`undefined`; `undefined >> 15` coerces to `0 >>> 15`, so the `FL_NEG` branch
is unreachable. -/
def updateCondFlag (registers : Nat → Nat) (register : Nat) : Nat → Nat :=
  if registers register = 0 then regSet registers COND FL_ZRO
  else if (0 >>> 15) = 1 then regSet registers COND FL_NEG
  else regSet registers COND FL_POS

/-- `trapOut` of the older draft: it reads memory at `registers[R0]` and
writes that character, instead of writing `R0` itself. -/
def trapOut (s : VM) : VM :=
  let rm := readMemory s (s.registers R0)
  stdoutWrite rm.2 (fromCharCode (rm.1.getD 0))

end Legacy

-- ------------------------------------------------------------------
-- Further definitions used by the claim theorems
-- ------------------------------------------------------------------

/-- The claim's own wording of sign extension: take the low `w` bits of `v`;
when bit `w-1` is set, the result is `(low w bits) | (0xFFFF << w)` truncated
to 16 bits; otherwise it is the low `w` bits. -/
def signExtendSpec (v w : Nat) : Nat :=
  if Nat.testBit v (w - 1) then ((v % 2 ^ w) ||| (0xffff <<< w)) &&& 0xffff
  else v % 2 ^ w

/-- Registers with `R0 = 0x8000`, a negative 16-bit value. -/
def regsC2 : Nat → Nat := fun i => if i = 0 then 0x8000 else 0

/-- A state with `R0 = 0x41` and `mem[0x41] = 0x5a`. -/
def sC7 : VM := writeMemory (setReg (initVM [] []) 0 0x41) 0x41 0x5a

/-- A state with `PC = 0x3000` and `mem[0x3000] = 0xf025` (TRAP HALT). -/
def sC4 : VM := writeMemory (setReg (initVM [] []) 8 0x3000) 0x3000 0xf025

/-- A state whose next keyboard poll yields the byte 0x41. -/
def sC5 : VM := initVM [some 0x41] []

/-- A state whose next keyboard poll yields the NUL byte 0x00. -/
def sC10 : VM := initVM [some 0] []

/-- A state whose next keyboard poll yields the byte 0x41 = 65. -/
def tC10 : VM := initVM [some 65] []

/-- Projects a register out of an optional machine state. -/
def regOf (r : Nat) (o : Option VM) : Nat :=
  match o with
  | some s => s.registers r
  | none => 0

-- ------------------------------------------------------------------
-- Helper lemmas
-- ------------------------------------------------------------------

@[simp] lemma regSet_ne {i r : Nat} (f : Nat → Nat) (v : Nat) (h : i ≠ r) :
    regSet f r v i = f i := by
  simp [regSet, h]

@[simp] lemma setReg_registers_ne {i r : Nat} (s : VM) (v : Nat) (h : i ≠ r) :
    (setReg s r v).registers i = s.registers i := by
  simp [setReg, regSet, h]

@[simp] lemma setReg_memory (s : VM) (r v : Nat) :
    (setReg s r v).memory = s.memory := rfl

lemma setReg_registers_eq (s : VM) (r v : Nat) (h : r < 10) :
    (setReg s r v).registers r = v % 65536 := by
  simp [setReg, regSet, h]

@[simp] lemma writeMemory_registers (s : VM) (a v : Nat) :
    (writeMemory s a v).registers = s.registers := rfl

lemma writeMemory_memory_eq (s : VM) (a v : Nat) (h : a < MEM_SIZE) :
    (writeMemory s a v).memory a = v % 65536 := by
  simp [writeMemory, tarrSet, h]

lemma writeMemory_memory_ne (s : VM) (a v b : Nat) (h : b ≠ a) :
    (writeMemory s a v).memory b = s.memory b := by
  simp [writeMemory, tarrSet, h]

lemma writeMemory_memory_oob (s : VM) (a v : Nat) (h : ¬ a < MEM_SIZE) :
    (writeMemory s a v).memory = s.memory := by
  funext b
  simp [writeMemory, tarrSet, h]

@[simp] lemma stdoutWrite_registers (s : VM) (c : Nat) :
    (stdoutWrite s c).registers = s.registers := rfl

@[simp] lemma stdoutWriteStr_registers (s : VM) (cs : List Nat) :
    (stdoutWriteStr s cs).registers = s.registers := rfl

@[simp] lemma readMemory_registers (s : VM) (a : Nat) :
    ((readMemory s a).2).registers = s.registers := by
  simp only [readMemory]
  split
  · split <;> rfl
  · rfl

@[simp] lemma readMemoryOpt_registers (s : VM) (a : Option Nat) :
    ((readMemoryOpt s a).2).registers = s.registers := by
  cases a <;> simp [readMemoryOpt]

@[simp] lemma writeMemoryOpt_registers (s : VM) (a : Option Nat) (v : Nat) :
    (writeMemoryOpt s a v).registers = s.registers := by
  cases a <;> rfl

@[simp] lemma getChar_registers (s : VM) :
    ((getChar s).2).registers = s.registers := rfl

lemma trapPutsLoop_registers :
    ∀ (fuel : Nat) (s : VM) (addr : Nat) (c : Option Nat) (s' : VM),
      trapPutsLoop s addr c fuel = some s' → s'.registers = s.registers := by
  intro fuel
  induction fuel with
  | zero =>
    intro s addr c s' h
    simp [trapPutsLoop] at h
  | succ n ih =>
    intro s addr c s' h
    rw [trapPutsLoop] at h
    split at h
    · cases h
      rfl
    · have h2 := ih _ _ _ _ h
      rw [h2]
      simp

lemma trapPutspLoop_registers :
    ∀ (fuel : Nat) (s : VM) (addr : Nat) (c : Option Nat) (s' : VM),
      trapPutspLoop s addr c fuel = some s' → s'.registers = s.registers := by
  intro fuel
  induction fuel with
  | zero =>
    intro s addr c s' h
    simp [trapPutspLoop] at h
  | succ n ih =>
    intro s addr c s' h
    rw [trapPutspLoop] at h
    split at h
    · cases h
      rfl
    · have h2 := ih _ _ _ _ h
      rw [h2]
      split <;> simp

lemma trapPuts_registers {s : VM} {fuel : Nat} {s' : VM}
    (h : trapPuts s fuel = some s') : s'.registers = s.registers := by
  rw [trapPuts] at h
  have h2 := trapPutsLoop_registers _ _ _ _ _ h
  rw [h2]
  simp

lemma trapPutsp_registers {s : VM} {fuel : Nat} {s' : VM}
    (h : trapPutsp s fuel = some s') : s'.registers = s.registers := by
  rw [trapPutsp] at h
  have h2 := trapPutspLoop_registers _ _ _ _ _ h
  rw [h2]
  simp

/-- Register preservation across the whole TRAP case of the dispatch: no trap
routine writes any register other than R0. -/
lemma executeInstr_trap_registers {s : VM} {instruction fuel : Nat} {s' : VM}
    (hop : instruction >>> 12 = 15)
    (h : executeInstr s instruction fuel = some s')
    {r : Nat} (hr : r ≠ 0) : s'.registers r = s.registers r := by
  simp only [executeInstr, hop, OP_ADD, OP_AND, OP_NOT, OP_BR, OP_JMP, OP_JSR,
    OP_LD, OP_LDI, OP_LDR, OP_LEA, OP_ST, OP_STI, OP_STR, OP_TRAP, TRAP_GETC,
    TRAP_HALT, TRAP_IN, TRAP_OUT, TRAP_PUTS, TRAP_PUTSP] at h
  norm_num at h
  split at h
  · cases h
    simp [trapGetc, R0, hr]
  · split at h
    · cases h
      rfl
    · split at h
      · cases h
        simp [trapIn, R0, hr]
      · split at h
        · cases h
          simp [trapOut]
        · split at h
          · rw [trapPuts_registers h]
          · split at h
            · rw [trapPutsp_registers h]
            · cases h
              rfl

-- ------------------------------------------------------------------
-- Claim theorems
-- ------------------------------------------------------------------

/-- C1: the claim says every address in 0x0000..0xFFFF designates a valid
memory cell with write/read round-trip.  The backing array has only
0xffff = 65535 cells: at address 0xFFFF the write is dropped and the read
returns `undefined`, while at 0xFFFE the round-trip does hold. -/
theorem C1_memory_oob :
    (readMemory (writeMemory (initVM [] []) 0xffff 0x1234) 0xffff).1 = none
    ∧ (readMemory (writeMemory (initVM [] []) 0xfffe 0x1234) 0xfffe).1 =
        some 0x1234 := by
  decide

/-- C2: evaluating the older draft's `updateCondFlag` on a register holding
0x8000 (bit 15 set): the code produces `FL_POS`, while the claimed rule
demands `FL_NEG`. -/
theorem C2_legacy_flag_bug :
    Legacy.updateCondFlag regsC2 0 COND = FL_POS
    ∧ Nat.testBit 0x8000 15 = true
    ∧ FL_POS ≠ FL_NEG := by
  decide

/-- C7: on a state with `R0 = 0x41` and `mem[0x41] = 0x5a`, the older draft's
`trapOut` reads memory and emits 0x5a, while the current `trapOut` emits `R0`
itself as the claim states. -/
theorem C7_legacy_trapOut_bug :
    (Legacy.trapOut sC7).out = [0x5a]
    ∧ (trapOut sC7).out = [0x41]
    ∧ (0x5a : Nat) ≠ 0x41 := by
  decide

/-- C6 counterexample: the older draft's `signExtend` (one of the two cited
`sign_extend` implementations) violates the claimed characterization at
`v = 16`, `w = 5`: it returns `0x1ffff0`, not the 16-bit word `0xfff0`. -/
theorem C6_counterexample :
    Legacy.signExtend 16 5 = 0x1ffff0
    ∧ ((16 &&& 0b11111) ||| (0xffff <<< 5)) &&& 0xffff = 0xfff0
    ∧ (0x1ffff0 : Nat) ≠ 0xfff0 := by
  decide


/-- C4 counterexample: executing TRAP HALT fetched from address 0x3000 leaves
R7 = 0 even though the already-advanced PC is 0x3001; the claim demands
R7 = 0x3001. -/
theorem C4_counterexample :
    regOf 7 (step sC4 1) = 0 ∧ regOf 8 (step sC4 1) = 0x3001
    ∧ (0 : Nat) ≠ 0x3001 := by
  decide

/-- C4 (amended): an instruction with opcode bits 15..12 = 1111 dispatches on
its trap vector without storing PC into R7; R7 retains its prior value across
every trap. -/
theorem C4_trap_preserves_r7 (s : VM) (instruction fuel : Nat) (s' : VM)
    (hop : instruction >>> 12 = 15)
    (hexec : executeInstr s instruction fuel = some s') :
    s'.registers 7 = s.registers 7 :=
  executeInstr_trap_registers hop hexec (by decide)

/-- Witness for `C4_trap_preserves_r7` at TRAP OUT (0xf021) on the zeroed
machine. -/
theorem C4_witness :
    (0xf021 : Nat) >>> 12 = 15
    ∧ (trapOut (initVM [] [])).registers 7 = (initVM [] []).registers 7 :=
  ⟨by decide,
    C4_trap_preserves_r7 (initVM [] []) 0xf021 0 (trapOut (initVM [] []))
      (by decide) rfl⟩

/-- C9: executing any instruction whose opcode is BR, ST, JSR, STR, STI, JMP
or TRAP (with any trap vector) leaves COND unchanged. -/
theorem C9_cond_preserved (s : VM) (instruction fuel : Nat) (s' : VM)
    (hop : instruction >>> 12 = OP_BR ∨ instruction >>> 12 = OP_ST
      ∨ instruction >>> 12 = OP_JSR ∨ instruction >>> 12 = OP_STR
      ∨ instruction >>> 12 = OP_STI ∨ instruction >>> 12 = OP_JMP
      ∨ instruction >>> 12 = OP_TRAP)
    (hexec : executeInstr s instruction fuel = some s') :
    s'.registers COND = s.registers COND := by
  rcases hop with h | h | h | h | h | h | h
  · -- BR
    simp only [executeInstr, h, OP_ADD, OP_AND, OP_NOT, OP_BR, OP_JMP, OP_JSR,
      OP_LD, OP_LDI, OP_LDR, OP_LEA, OP_ST, OP_STI, OP_STR, OP_TRAP] at hexec
    norm_num at hexec
    cases hexec
    simp only [branch]
    split <;> simp [PC, COND]
  · -- ST
    simp only [executeInstr, h, OP_ADD, OP_AND, OP_NOT, OP_BR, OP_JMP, OP_JSR,
      OP_LD, OP_LDI, OP_LDR, OP_LEA, OP_ST, OP_STI, OP_STR, OP_TRAP] at hexec
    norm_num at hexec
    cases hexec
    simp [store]
  · -- JSR
    simp only [executeInstr, h, OP_ADD, OP_AND, OP_NOT, OP_BR, OP_JMP, OP_JSR,
      OP_LD, OP_LDI, OP_LDR, OP_LEA, OP_ST, OP_STI, OP_STR, OP_TRAP] at hexec
    norm_num at hexec
    cases hexec
    simp only [jumpToSubroutine]
    split <;> simp [PC, COND, R7]
  · -- STR
    simp only [executeInstr, h, OP_ADD, OP_AND, OP_NOT, OP_BR, OP_JMP, OP_JSR,
      OP_LD, OP_LDI, OP_LDR, OP_LEA, OP_ST, OP_STI, OP_STR, OP_TRAP] at hexec
    norm_num at hexec
    cases hexec
    simp [storeOffset]
  · -- STI
    simp only [executeInstr, h, OP_ADD, OP_AND, OP_NOT, OP_BR, OP_JMP, OP_JSR,
      OP_LD, OP_LDI, OP_LDR, OP_LEA, OP_ST, OP_STI, OP_STR, OP_TRAP] at hexec
    norm_num at hexec
    cases hexec
    simp [storeIndirect]
  · -- JMP
    simp only [executeInstr, h, OP_ADD, OP_AND, OP_NOT, OP_BR, OP_JMP, OP_JSR,
      OP_LD, OP_LDI, OP_LDR, OP_LEA, OP_ST, OP_STI, OP_STR, OP_TRAP] at hexec
    norm_num at hexec
    cases hexec
    simp [jump, PC, COND]
  · -- TRAP
    exact executeInstr_trap_registers h hexec (by decide)

/-- Witness for `C9_cond_preserved` at ST (0x3123) on the zeroed machine. -/
theorem C9_witness :
    ((0x3123 : Nat) >>> 12 = OP_BR ∨ (0x3123 : Nat) >>> 12 = OP_ST
      ∨ (0x3123 : Nat) >>> 12 = OP_JSR ∨ (0x3123 : Nat) >>> 12 = OP_STR
      ∨ (0x3123 : Nat) >>> 12 = OP_STI ∨ (0x3123 : Nat) >>> 12 = OP_JMP
      ∨ (0x3123 : Nat) >>> 12 = OP_TRAP)
    ∧ (store 0x3123 (initVM [] [])).registers COND
        = (initVM [] []).registers COND :=
  ⟨by decide,
    C9_cond_preserved (initVM [] []) 0x3123 0 (store 0x3123 (initVM [] []))
      (by decide) rfl⟩

lemma shiftLeft_one_sub_one (w : Nat) : (1 <<< w) - 1 = 2 ^ w - 1 := by
  rw [Nat.shiftLeft_eq, one_mul]

set_option linter.unusedVariables false in
/-- C6 (amended to the current implementation `signExtendSuffix`): for every
16-bit value and each width in {5, 6, 9, 11}, the function returns the low
`w` bits, with ones ORed into positions `w..15` exactly when bit `w-1` is
set, truncated to 16 bits. -/
theorem C6_signExtendSuffix_spec (v w : Nat) (hv : v < 65536)
    (hw : w = 5 ∨ w = 6 ∨ w = 9 ∨ w = 11) :
    signExtendSuffix v w = signExtendSpec v w := by
  have hw0 : 0 < w := by rcases hw with rfl | rfl | rfl | rfl <;> omega
  simp only [signExtendSuffix, signExtendSpec, shiftLeft_one_sub_one,
    Nat.and_pow_two_sub_one_eq_mod]
  have h1 : Nat.testBit (v % 2 ^ w) (w - 1) = Nat.testBit v (w - 1) := by
    rw [Nat.testBit_mod_two_pow]
    simp [Nat.sub_lt hw0 Nat.one_pos]
  have h2 : ((v % 2 ^ w) >>> (w - 1)) &&& 1 = 1 ↔
      Nat.testBit v (w - 1) = true := by
    rw [← h1, Nat.testBit_to_div_mod, Nat.and_one_is_mod,
      Nat.shiftRight_eq_div_pow]
    simp
  by_cases hb : Nat.testBit v (w - 1) = true
  · rw [if_pos (h2.mpr hb), if_pos hb]
  · rw [if_neg (fun hc => hb (h2.mp hc)), if_neg hb]

/-- Witness for `C6_signExtendSuffix_spec` at `v = 0x1f`, `w = 5`. -/
theorem C6_witness :
    (0x1f : Nat) < 65536 ∧ signExtendSuffix 0x1f 5 = signExtendSpec 0x1f 5 :=
  ⟨by decide, C6_signExtendSuffix_spec 0x1f 5 (by decide) (Or.inl rfl)⟩

/-- Reduction of a KBSR read after a poll that obtained a truthy byte. -/
lemma readMemory_kbsr_success (s : VM)
    (hkey : (s.polls.headD none).getD 0 ≠ 0) :
    readMemory s MR_KBSR
      = (tarrGet (writeMemory (writeMemory { s with polls := s.polls.tail }
            MR_KBSR 0x8000) MR_KBDR ((s.polls.headD none).getD 0)).memory
            MR_KBSR,
         writeMemory (writeMemory { s with polls := s.polls.tail }
            MR_KBSR 0x8000) MR_KBDR ((s.polls.headD none).getD 0)) := by
  simp only [readMemory, if_true]
  rw [if_pos hkey]

/-- Reduction of a KBSR read after a poll that obtained no key or NUL. -/
lemma readMemory_kbsr_fail (s : VM)
    (hkey : ¬ (s.polls.headD none).getD 0 ≠ 0) :
    readMemory s MR_KBSR
      = (tarrGet (writeMemory { s with polls := s.polls.tail }
            MR_KBSR 0).memory MR_KBSR,
         writeMemory { s with polls := s.polls.tail } MR_KBSR 0) := by
  simp only [readMemory, if_true]
  rw [if_neg hkey]

/-- C5 (amended): a read of KBSR polls the keyboard; if the poll obtains a
truthy byte `c` (`c ≠ 0`) then afterwards `mem[KBSR] = 0x8000` and
`mem[KBDR] = c`; if it obtains no key or the byte 0x00 then `mem[KBSR] = 0`
and `mem[KBDR]` is unchanged; in both cases the read returns `mem[KBSR]` and
no other memory cell or register changes. -/
theorem C5_kbsr_read (s : VM) (a : Nat)
    (hk : (s.polls.headD none).getD 0 < 256)
    (ha : a ≠ MR_KBSR) (hb : a ≠ MR_KBDR) :
    (readMemory s MR_KBSR).2.memory MR_KBSR
        = (if (s.polls.headD none).getD 0 ≠ 0 then 0x8000 else 0)
    ∧ (readMemory s MR_KBSR).2.memory MR_KBDR
        = (if (s.polls.headD none).getD 0 ≠ 0 then (s.polls.headD none).getD 0
           else s.memory MR_KBDR)
    ∧ (readMemory s MR_KBSR).1
        = some (if (s.polls.headD none).getD 0 ≠ 0 then 0x8000 else 0)
    ∧ (readMemory s MR_KBSR).2.memory a = s.memory a
    ∧ (readMemory s MR_KBSR).2.registers = s.registers := by
  have hne : MR_KBSR ≠ MR_KBDR := by decide
  have hne2 : MR_KBDR ≠ MR_KBSR := by decide
  have hlt1 : MR_KBSR < MEM_SIZE := by decide
  have hlt2 : MR_KBDR < MEM_SIZE := by decide
  by_cases hkey : (s.polls.headD none).getD 0 ≠ 0
  · rw [readMemory_kbsr_success s hkey]
    simp only [if_pos hkey]
    refine ⟨?_, ?_, ?_, ?_, rfl⟩
    · rw [writeMemory_memory_ne _ _ _ _ hne, writeMemory_memory_eq _ _ _ hlt1]
    · rw [writeMemory_memory_eq _ _ _ hlt2, Nat.mod_eq_of_lt (by omega)]
    · show tarrGet _ MR_KBSR = _
      rw [tarrGet, if_pos hlt1]
      rw [writeMemory_memory_ne _ _ _ _ hne, writeMemory_memory_eq _ _ _ hlt1]
    · rw [writeMemory_memory_ne _ _ _ _ hb, writeMemory_memory_ne _ _ _ _ ha]
  · rw [readMemory_kbsr_fail s hkey]
    simp only [if_neg hkey]
    refine ⟨?_, ?_, ?_, ?_, rfl⟩
    · rw [writeMemory_memory_eq _ _ _ hlt1]
    · rw [writeMemory_memory_ne _ _ _ _ hne2]
    · show tarrGet _ MR_KBSR = _
      rw [tarrGet, if_pos hlt1]
      rw [writeMemory_memory_eq _ _ _ hlt1]
    · rw [writeMemory_memory_ne _ _ _ _ ha]

/-- C5 counterexample: the claim's success case fails when the poll yields
the byte 0x00: the code then sets KBSR to 0, not 0x8000. -/
theorem C5_counterexample :
    (initVM [some 0] []).polls.headD none = some 0
    ∧ (readMemory (initVM [some 0] []) MR_KBSR).2.memory MR_KBSR = 0
    ∧ (0 : Nat) ≠ 0x8000 := by
  decide

/-- Witness for `C5_kbsr_read`: a successful poll of byte 0x41. -/
theorem C5_witness :
    (readMemory sC5 MR_KBSR).2.memory MR_KBSR = 0x8000
    ∧ (readMemory sC5 MR_KBSR).2.memory MR_KBDR = 0x41
    ∧ (readMemory sC5 MR_KBSR).1 = some 0x8000
    ∧ (readMemory sC5 MR_KBSR).2.memory 0 = sC5.memory 0
    ∧ (readMemory sC5 MR_KBSR).2.registers = sC5.registers := by
  have h := C5_kbsr_read sC5 0 (by decide) (by decide) (by decide)
  simpa [sC5, initVM] using h

/-- C10: a poll that obtains the byte 0x00 is treated as unsuccessful (KBSR
is cleared and KBDR untouched), and a successful poll always stores a
non-zero byte in KBDR. -/
theorem C10_nul_poll (s t : VM)
    (hs : s.polls.headD none = some 0)
    (ht : (t.polls.headD none).getD 0 ≠ 0)
    (htb : (t.polls.headD none).getD 0 < 256) :
    (readMemory s MR_KBSR).2.memory MR_KBSR = 0
    ∧ (readMemory s MR_KBSR).2.memory MR_KBDR = s.memory MR_KBDR
    ∧ (readMemory s MR_KBSR).1 = some 0
    ∧ (readMemory t MR_KBSR).2.memory MR_KBDR ≠ 0 := by
  have hlt1 : MR_KBSR < MEM_SIZE := by decide
  have hlt2 : MR_KBDR < MEM_SIZE := by decide
  have hne2 : MR_KBDR ≠ MR_KBSR := by decide
  have hs0 : ¬ (s.polls.headD none).getD 0 ≠ 0 := by
    rw [hs]
    simp
  refine ⟨?_, ?_, ?_, ?_⟩
  · rw [readMemory_kbsr_fail s hs0]
    rw [writeMemory_memory_eq _ _ _ hlt1]
  · rw [readMemory_kbsr_fail s hs0]
    rw [writeMemory_memory_ne _ _ _ _ hne2]
  · rw [readMemory_kbsr_fail s hs0]
    show tarrGet _ MR_KBSR = _
    rw [tarrGet, if_pos hlt1, writeMemory_memory_eq _ _ _ hlt1]
  · rw [readMemory_kbsr_success t ht]
    rw [writeMemory_memory_eq _ _ _ hlt2, Nat.mod_eq_of_lt (by omega)]
    exact ht

/-- Witness for `C10_nul_poll`: a NUL poll and a poll of byte 65. -/
theorem C10_witness :
    (readMemory sC10 MR_KBSR).2.memory MR_KBSR = 0
    ∧ (readMemory sC10 MR_KBSR).2.memory MR_KBDR = sC10.memory MR_KBDR
    ∧ (readMemory sC10 MR_KBSR).1 = some 0
    ∧ (readMemory tC10 MR_KBSR).2.memory MR_KBDR ≠ 0 :=
  C10_nul_poll sC10 tC10 rfl (by decide) (by decide)

/-- The image-loading loop never touches the registers. -/
lemma loadLoop_registers (bytes : List Nat) :
    ∀ (k offset : Nat), bytes.length - offset ≤ k →
      ∀ (s : VM) (loc : Nat),
        (loadLoop s bytes loc offset).registers = s.registers := by
  intro k
  induction k with
  | zero =>
    intro offset h s loc
    rw [loadLoop, if_neg (by omega)]
  | succ n ih =>
    intro offset h s loc
    by_cases hlt : offset < bytes.length
    · rw [loadLoop, if_pos hlt, ih (offset + 2) (by omega)]
      exact writeMemory_registers _ _ _
    · rw [loadLoop, if_neg hlt]

/-- Cell-level characterization of the image-loading loop: the word taken at
byte offset `offset + 2 * (a - loc)` lands in cell `a` when that cell exists
and the offset is within the image; every other cell is untouched.  Locations
past the end of the backing array are dropped, not wrapped. -/
lemma loadLoop_memory (bytes : List Nat) :
    ∀ (k offset : Nat), bytes.length - offset ≤ k →
      ∀ (s : VM) (loc a : Nat),
        (loadLoop s bytes loc offset).memory a =
          if loc ≤ a ∧ offset + 2 * (a - loc) < bytes.length ∧ a < MEM_SIZE
          then readUInt16BE bytes (offset + 2 * (a - loc)) % 65536
          else s.memory a := by
  intro k
  induction k with
  | zero =>
    intro offset h s loc a
    rw [loadLoop, if_neg (by omega), if_neg (by omega)]
  | succ n ih =>
    intro offset h s loc a
    by_cases hlt : offset < bytes.length
    · rw [loadLoop, if_pos hlt, ih (offset + 2) (by omega)]
      rcases Nat.lt_trichotomy a loc with hal | heq | hag
      · rw [if_neg (by omega), if_neg (by omega)]
        exact writeMemory_memory_ne _ _ _ _ (by omega)
      · subst heq
        rw [if_neg (by omega)]
        by_cases hm : a < MEM_SIZE
        · rw [if_pos ⟨Nat.le_refl a, by omega, hm⟩,
            writeMemory_memory_eq _ _ _ hm,
            show offset + 2 * (a - a) = offset by omega]
        · rw [if_neg (by omega), writeMemory_memory_oob _ _ _ hm]
      · by_cases hc : offset + 2 * (a - loc) < bytes.length ∧ a < MEM_SIZE
        · rw [if_pos ⟨by omega, by omega, hc.2⟩,
            if_pos ⟨by omega, hc.1, hc.2⟩,
            show offset + 2 + 2 * (a - (loc + 1)) = offset + 2 * (a - loc)
              by omega]
        · rw [if_neg (by omega), if_neg (by omega)]
          exact writeMemory_memory_ne _ _ _ _ (by omega)
    · rw [loadLoop, if_neg hlt, if_neg (by omega)]

lemma getD_lt_256 {bytes : List Nat} (hbytes : ∀ b ∈ bytes, b < 256)
    (j : Nat) : bytes.getD j 0 < 256 := by
  rw [List.getD_eq_getElem?_getD]
  rcases Nat.lt_or_ge j bytes.length with hj | hj
  · rw [List.getElem?_eq_getElem hj, Option.getD_some]
    exact hbytes _ (List.getElem_mem hj)
  · rw [List.getElem?_eq_none hj, Option.getD_none]
    norm_num

/-- A big-endian word assembled from two bytes is a 16-bit value. -/
lemma readUInt16BE_lt {bytes : List Nat} (hbytes : ∀ b ∈ bytes, b < 256)
    (off : Nat) : readUInt16BE bytes off < 65536 := by
  have h1 := getD_lt_256 hbytes off
  have h2 := getD_lt_256 hbytes (off + 1)
  unfold readUInt16BE
  omega

/-- C3 counterexample: at the start of the fetch-decode-execute loop COND
holds 0, not Z = 0b010; no code path initializes COND. -/
theorem C3_counterexample :
    (startVM [0x30, 0x00] [] []).registers 9 = 0 ∧ (0 : Nat) ≠ 0b010 := by
  refine ⟨?_, by decide⟩
  show (setReg (loadLoop (initVM [] []) [0x30, 0x00]
      (readUInt16BE [0x30, 0x00] 0) 2) PC 0x3000).registers 9 = 0
  rw [setReg_registers_ne _ _ (by decide),
    loadLoop_registers [0x30, 0x00] 0 2 (by decide)]
  rfl

/-- C3 (amended): after image loading and the reset step, PC = 0x3000 and
every other register, including COND, is zero. -/
theorem C3_initial_registers (bytes : List Nat) (polls : List (Option Nat))
    (keys : List Nat) (r : Nat) (hr : r ≠ 8) :
    (startVM bytes polls keys).registers 8 = 0x3000
    ∧ (startVM bytes polls keys).registers r = 0 := by
  constructor
  · show (setReg (loadLoop (initVM polls keys) bytes (readUInt16BE bytes 0) 2)
        PC 0x3000).registers 8 = 0x3000
    simp [setReg, regSet, PC]
  · show (setReg (loadLoop (initVM polls keys) bytes (readUInt16BE bytes 0) 2)
        PC 0x3000).registers r = 0
    rw [setReg_registers_ne _ _ (by simpa [PC] using hr),
      loadLoop_registers bytes bytes.length 2 (by omega)]
    rfl

/-- Witness for `C3_initial_registers` at `r = COND = 9`. -/
theorem C3_witness :
    (9 : Nat) ≠ 8
    ∧ ((startVM [0x30, 0x00] [] []).registers 8 = 0x3000
      ∧ (startVM [0x30, 0x00] [] []).registers 9 = 0) :=
  ⟨by decide, C3_initial_registers [0x30, 0x00] [] [] 9 (by decide)⟩

/-- C8 counterexample: an image with origin 0xfffe and words [1, 1, 1].  The
claim places W_2 at (0xfffe + 2) mod 2^16 = 0, but the loader does not wrap:
stores past the end of the backing array are dropped, and cell 0 stays 0. -/
theorem C8_no_wrap :
    readUInt16BE [0xff, 0xfe, 0, 1, 0, 1, 0, 1] 0 = 0xfffe
    ∧ (0xfffe + 2) % 65536 = 0
    ∧ readUInt16BE [0xff, 0xfe, 0, 1, 0, 1, 0, 1] (2 + 2 * 2) = 1
    ∧ (startVM [0xff, 0xfe, 0, 1, 0, 1, 0, 1] [] []).memory 0 = 0
    ∧ (0 : Nat) ≠ 1 := by
  refine ⟨by decide, by decide, by decide, ?_, by decide⟩
  show (setReg (loadLoop (initVM [] []) [0xff, 0xfe, 0, 1, 0, 1, 0, 1]
      (readUInt16BE [0xff, 0xfe, 0, 1, 0, 1, 0, 1] 0) 2) PC 0x3000).memory 0
      = 0
  rw [setReg_memory,
    loadLoop_memory [0xff, 0xfe, 0, 1, 0, 1, 0, 1] 8 2 (by decide),
    if_neg (by decide)]
  rfl

/-- C8 (amended): the loader stores word `W_i` at `O + i` without any
wrap-around: cells `O + i < 0xffff` receive `W_i`, stores at `O + i ≥ 0xffff`
are dropped, and every cell outside the written range keeps its initial zero
value. -/
theorem C8_loader (bytes : List Nat) (polls : List (Option Nat))
    (keys : List Nat) (i a : Nat)
    (heven : bytes.length % 2 = 0) (hlen : 2 ≤ bytes.length)
    (hbytes : ∀ b ∈ bytes, b < 256)
    (hi : 2 + 2 * i < bytes.length)
    (hO : readUInt16BE bytes 0 + i < MEM_SIZE)
    (ha : a < readUInt16BE bytes 0
      ∨ readUInt16BE bytes 0 + (bytes.length - 2) / 2 ≤ a) :
    (startVM bytes polls keys).memory (readUInt16BE bytes 0 + i)
        = readUInt16BE bytes (2 + 2 * i)
    ∧ (startVM bytes polls keys).memory a = 0 := by
  constructor
  · show (setReg (loadLoop (initVM polls keys) bytes (readUInt16BE bytes 0) 2)
        PC 0x3000).memory (readUInt16BE bytes 0 + i)
        = readUInt16BE bytes (2 + 2 * i)
    rw [setReg_memory, loadLoop_memory bytes bytes.length 2 (by omega),
      if_pos ⟨Nat.le_add_right _ _, by omega, hO⟩,
      show 2 + 2 * (readUInt16BE bytes 0 + i - readUInt16BE bytes 0)
          = 2 + 2 * i by omega,
      Nat.mod_eq_of_lt (readUInt16BE_lt hbytes _)]
  · show (setReg (loadLoop (initVM polls keys) bytes (readUInt16BE bytes 0) 2)
        PC 0x3000).memory a = 0
    rw [setReg_memory, loadLoop_memory bytes bytes.length 2 (by omega),
      if_neg (by omega)]
    rfl

/-- Witness for `C8_loader`: origin 0x3000, one word 0xabcd, checked at
`i = 0` and at the untouched cell 0. -/
theorem C8_witness :
    2 + 2 * 0 < ([0x30, 0x00, 0xab, 0xcd] : List Nat).length
    ∧ (startVM [0x30, 0x00, 0xab, 0xcd] [] []).memory
        (readUInt16BE [0x30, 0x00, 0xab, 0xcd] 0 + 0)
      = readUInt16BE [0x30, 0x00, 0xab, 0xcd] (2 + 2 * 0)
    ∧ (startVM [0x30, 0x00, 0xab, 0xcd] [] []).memory 0 = 0 := by
  have h := C8_loader [0x30, 0x00, 0xab, 0xcd] [] [] 0 0 (by decide)
    (by decide) (by decide) (by decide) (by decide) (by decide)
  exact ⟨by decide, h.1, h.2⟩


/-- The current implementation's flag rule: after `updateCondFlag(r)`, COND
holds Z when the register is zero, N when its bit 15 is set, and P otherwise
- always exactly one of the three one-hot values. -/
lemma updateCondFlag_rule (s : VM) (r : Nat) (h16 : s.registers r < 65536) :
    (updateCondFlag r s).registers COND =
      if s.registers r = 0 then FL_ZRO
      else if Nat.testBit (s.registers r) 15 then FL_NEG
      else FL_POS := by
  have heq : (s.registers r >>> 15 = 1) ↔
      Nat.testBit (s.registers r) 15 = true := by
    rw [Nat.testBit_to_div_mod, Nat.shiftRight_eq_div_pow]
    have h2 : (2 : Nat) ^ 15 = 32768 := by norm_num
    rw [h2]
    constructor
    · intro hx
      simp [hx]
    · intro hx
      simp only [decide_eq_true_eq] at hx
      omega
  unfold updateCondFlag
  by_cases h0 : s.registers r = 0
  · rw [if_pos h0, if_pos h0, setReg_registers_eq _ _ _ (by decide)]
    decide
  · rw [if_neg h0, if_neg h0]
    by_cases hb : s.registers r >>> 15 = 1
    · rw [if_pos hb, if_pos (heq.mp hb), setReg_registers_eq _ _ _ (by decide)]
      decide
    · rw [if_neg hb, if_neg (fun hc => hb (heq.mpr hc)),
        setReg_registers_eq _ _ _ (by decide)]
      decide

end LC3
